import Mathlib

/-!
Verification of the PDF binding-line page-shift tool (`src/main.py`).

The program has one core function, `shift_pdf_pages`, which reads a PDF,
translates each page in a 1-based range `[start_page, end_page]`
horizontally by `shift_cm * 28.35` points, alternating direction by
parity of the offset from `start_page` (side of the first in-range page
controlled by `first_right`), copies out-of-range pages unchanged, and
writes the assembled document.  A Flet UI (`pick_file_result`,
`process_pdf`) supplies validated parameters.

Pages are modelled as an opaque content tag together with the ordered
list of affine translations that have been applied to them
(`add_transformation` in PyPDF2 appends one); a document is a list of
pages.  Python floats are modelled as rationals, Python ints as `Int`
(Python `%` on a positive modulus agrees with `Int.emod`).
-/

/-- A PDF page: opaque content plus the ordered list of translations
`(tx, ty)` that `add_transformation` has applied to it. -/
structure Page where
  content : Nat
  ops : List (ℚ × ℚ)
deriving DecidableEq, Repr

/-- `page.add_transformation(Transformation().translate(tx, ty))`:
appends one translation to the page's content stream. -/
def Page.add_transformation (pg : Page) (t : ℚ × ℚ) : Page :=
  { pg with ops := pg.ops ++ [t] }

/-- A PDF document as read by `PdfReader`: its ordered list of pages. -/
abbrev Document := List Page

/-- `shift = shift_cm * 28.35` (line 25 of `main.py`): centimetre to
point conversion. -/
def shiftPoints (shift_cm : ℚ) : ℚ :=
  shift_cm * (2835 / 100)

/-- Lines 27–28 of `main.py`:
`if end_page is None or end_page > total_pages: end_page = total_pages`. -/
def effectiveEnd (total_pages : Nat) (end_page : Option ℤ) : ℤ :=
  match end_page with
  | none => total_pages
  | some e => if e > (total_pages : ℤ) then total_pages else e

/-- Lines 35–37 of `main.py`: the page shifts right exactly when
`((page_num - start_page) % 2 == 0 and first_right) or
((page_num - start_page) % 2 == 1 and not first_right)`. -/
def shiftsRight (start_page page_num : ℤ) (first_right : Bool) : Bool :=
  ((page_num - start_page) % 2 == 0 && first_right) ||
    ((page_num - start_page) % 2 == 1 && !first_right)

/-- The body of the loop at lines 29–42 of `main.py` for the page at
0-based index `i`: out-of-range pages pass through unchanged, in-range
pages get exactly one translation `(±shift, 0)` appended. -/
def shiftOnePage (shift : ℚ) (start_page end_page : ℤ) (first_right : Bool)
    (i : Nat) (page : Page) : Page :=
  let page_num : ℤ := (i : ℤ) + 1
  if page_num < start_page || page_num > end_page then
    page
  else
    let t : ℚ × ℚ :=
      if shiftsRight start_page page_num first_right then
        (shift, 0)
      else
        (-shift, 0)
    page.add_transformation t

/-- The pure transformation performed by `shift_pdf_pages`
(lines 23–42 of `main.py`): the document assembled in `writer` before
anything is written to disk. -/
def shift_pdf_pages (doc : Document) (shift_cm : ℚ) (start_page : ℤ)
    (end_page : Option ℤ) (first_right : Bool) : Document :=
  let shift := shiftPoints shift_cm
  let total_pages := doc.length
  let endp := effectiveEnd total_pages end_page
  doc.enum.map fun p => shiftOnePage shift start_page endp first_right p.1 p.2

example :
    shift_pdf_pages
        [⟨0, []⟩, ⟨1, []⟩, ⟨2, []⟩, ⟨3, []⟩] 1 1 none true =
      [⟨0, [(2835 / 100, 0)]⟩, ⟨1, [(-(2835 / 100), 0)]⟩,
        ⟨2, [(2835 / 100, 0)]⟩, ⟨3, [(-(2835 / 100), 0)]⟩] := by
  norm_num [shift_pdf_pages, shiftOnePage, shiftsRight, shiftPoints,
    effectiveEnd, Page.add_transformation, List.enum, List.enumFrom]

example :
    shift_pdf_pages
        [⟨0, []⟩, ⟨1, []⟩, ⟨2, []⟩, ⟨3, []⟩] 1 2 (some 3) false =
      [⟨0, []⟩, ⟨1, [(-(2835 / 100), 0)]⟩,
        ⟨2, [(2835 / 100, 0)]⟩, ⟨3, []⟩] := by
  norm_num [shift_pdf_pages, shiftOnePage, shiftsRight, shiftPoints,
    effectiveEnd, Page.add_transformation, List.enum, List.enumFrom]

/-- Page `i` of the output is page `i` of the input run through the loop
body (indices 0-based). -/
theorem shift_pdf_pages_getElem? (doc : Document) (sc : ℚ) (sp : ℤ)
    (ep : Option ℤ) (fr : Bool) (i : Nat) :
    (shift_pdf_pages doc sc sp ep fr)[i]? =
      doc[i]?.map
        (shiftOnePage (shiftPoints sc) sp (effectiveEnd doc.length ep) fr i) := by
  simp [shift_pdf_pages, List.getElem?_enum, Option.map_map]
  rfl

/-- The writer receives exactly one page per input page. -/
theorem shift_pdf_pages_length (doc : Document) (sc : ℚ) (sp : ℤ)
    (ep : Option ℤ) (fr : Bool) :
    (shift_pdf_pages doc sc sp ep fr).length = doc.length := by
  simp [shift_pdf_pages, List.enum_length]

/-- The loop body never changes a page's content tag. -/
theorem shiftOnePage_content (shift : ℚ) (sp endp : ℤ) (fr : Bool) (i : Nat)
    (pg : Page) : (shiftOnePage shift sp endp fr i pg).content = pg.content := by
  unfold shiftOnePage Page.add_transformation
  dsimp only
  split <;> rfl

/-- The branch test of lines 35–37 in terms of parity of the offset. -/
theorem shiftsRight_iff (sp p : ℤ) (fr : Bool) :
    shiftsRight sp p fr = true ↔
      (Even (p - sp) ∧ fr = true) ∨ (Odd (p - sp) ∧ fr = false) := by
  cases fr <;>
    simp [shiftsRight, Int.even_iff, Int.odd_iff]

/-- Negating `first_right` negates the branch test at every page. -/
theorem shiftsRight_not (sp p : ℤ) (fr : Bool) :
    shiftsRight sp p (!fr) = !shiftsRight sp p fr := by
  rcases Int.emod_two_eq_zero_or_one (p - sp) with h | h <;>
    cases fr <;> simp [shiftsRight, h]

/-- The effective end page never exceeds the page count. -/
theorem effectiveEnd_le (total : Nat) (ep : Option ℤ) :
    effectiveEnd total ep ≤ (total : ℤ) := by
  unfold effectiveEnd
  cases ep with
  | none => simp
  | some e =>
    split <;> omega

/-- Changing `end_page` to a value with the same effective end leaves the
whole transformation unchanged. -/
theorem shift_pdf_pages_congr_end (doc : Document) (sc : ℚ) (sp : ℤ)
    (ep ep' : Option ℤ) (fr : Bool)
    (h : effectiveEnd doc.length ep = effectiveEnd doc.length ep') :
    shift_pdf_pages doc sc sp ep fr = shift_pdf_pages doc sc sp ep' fr := by
  unfold shift_pdf_pages
  dsimp only
  rw [h]

/-- For an in-range index the loop body appends exactly one translation,
chosen by the branch test. -/
theorem shiftOnePage_in_range (shift : ℚ) (sp endp : ℤ) (fr : Bool) (i : Nat)
    (pg : Page) (h1 : sp ≤ (i : ℤ) + 1) (h2 : (i : ℤ) + 1 ≤ endp) :
    shiftOnePage shift sp endp fr i pg =
      pg.add_transformation
        (if shiftsRight sp ((i : ℤ) + 1) fr = true then (shift, 0)
         else (-shift, 0)) := by
  unfold shiftOnePage
  dsimp only
  rw [if_neg]
  simp only [Bool.or_eq_true, decide_eq_true_eq, gt_iff_lt, not_or, not_lt]
  omega

/-- An out-of-range 1-based page position is passed through unchanged. -/
theorem shift_pdf_pages_out_of_range (doc : Document) (sc : ℚ) (sp : ℤ)
    (ep : Option ℤ) (fr : Bool) (p : Nat) (h1 : 1 ≤ p)
    (hout : (p : ℤ) < sp ∨ effectiveEnd doc.length ep < (p : ℤ)) :
    (shift_pdf_pages doc sc sp ep fr)[p - 1]? = doc[p - 1]? := by
  rw [shift_pdf_pages_getElem?]
  cases hn : doc[p - 1]? with
  | none => rfl
  | some pg =>
    have hcond :
        (decide (((p - 1 : ℕ) : ℤ) + 1 < sp) ||
          decide (((p - 1 : ℕ) : ℤ) + 1 > effectiveEnd doc.length ep)) = true := by
      simp only [Bool.or_eq_true, decide_eq_true_eq, gt_iff_lt]
      omega
    simp [shiftOnePage, hcond]

/-- An in-range 1-based page position receives exactly one translation of
`±shift` points, by the branch test at its offset. -/
theorem shift_pdf_pages_in_range (doc : Document) (sc : ℚ) (sp : ℤ)
    (ep : Option ℤ) (fr : Bool) (p : Nat) (h1 : 1 ≤ p) (hp : p ≤ doc.length)
    (hs : sp ≤ (p : ℤ)) (he : (p : ℤ) ≤ effectiveEnd doc.length ep) :
    (shift_pdf_pages doc sc sp ep fr)[p - 1]? =
      some ((doc.get ⟨p - 1, by omega⟩).add_transformation
        (if shiftsRight sp (p : ℤ) fr = true then (shiftPoints sc, 0)
         else (-(shiftPoints sc), 0))) := by
  have hlt : p - 1 < doc.length := by omega
  have hc : ((p - 1 : ℕ) : ℤ) + 1 = (p : ℤ) := by omega
  rw [shift_pdf_pages_getElem?, List.getElem?_eq_getElem hlt]
  rw [Option.map_some', shiftOnePage_in_range _ _ _ _ _ _ (by omega) (by omega),
    hc]
  rfl

/-- When every 1-based page number lies outside `[start_page, end_page]`
the loop copies each page unchanged, so the assembled document is the
input document. -/
theorem shift_pdf_pages_eq_self (doc : Document) (sc : ℚ) (sp : ℤ)
    (ep : Option ℤ) (fr : Bool)
    (h : effectiveEnd doc.length ep < sp) :
    shift_pdf_pages doc sc sp ep fr = doc := by
  apply List.ext_getElem?
  intro n
  rw [shift_pdf_pages_getElem?]
  cases hn : doc[n]? with
  | none => rfl
  | some pg =>
    have hcond : ((n : ℤ) + 1 < sp || (n : ℤ) + 1 > effectiveEnd doc.length ep) = true := by
      simp only [Bool.or_eq_true, decide_eq_true_eq, gt_iff_lt]
      omega
    simp [shiftOnePage, hcond]

/-- Actions performed on the destination file by one call of
`shift_pdf_pages`. -/
inductive FileEvent where
  | opened (path : String)
  | wrote (path : String) (doc : Document)
deriving DecidableEq, Repr

/-- Model of one full call of `shift_pdf_pages` including its I/O order
(lines 23–44 of `main.py`).  `readResult` is the outcome of
`PdfReader(input_path)` (an error models a source that cannot be parsed);
`openResult` is the outcome of `open(output_path, "wb")` (an error models
a destination that cannot be created).  A Python exception propagates to
the caller as `Except.error` with its message.  The event list records,
in order, every action taken on the destination: the document is fully
assembled in memory before the destination is opened and written. -/
def shift_pdf_pages_run (readResult : Except String Document)
    (output_path : String) (openResult : Except String Unit) (sc : ℚ)
    (sp : ℤ) (ep : Option ℤ) (fr : Bool) :
    Except String Document × List FileEvent :=
  match readResult with
  | .error msg => (.error msg, [])
  | .ok doc =>
    let out := shift_pdf_pages doc sc sp ep fr
    match openResult with
    | .error msg => (.error msg, [])
    | .ok _ => (.ok out, [.opened output_path, .wrote output_path out])

/-- Python `str.strip()`: remove leading and trailing whitespace. -/
def pyStrip (s : String) : String :=
  String.mk
    (((s.data.dropWhile Char.isWhitespace).reverse.dropWhile
        Char.isWhitespace).reverse)

/-- Python `str.rfind(c)` on a character list: index of the last
occurrence, `-1` when absent. -/
def pyRFind (l : List Char) (c : Char) : ℤ :=
  if c ∈ l then (l.length : ℤ) - 1 - (l.reverse.indexOf c : ℤ) else -1

/-- Python `os.path.basename` (POSIX): everything after the last `/`. -/
def os_path_basename (p : String) : String :=
  String.mk ((p.data.reverse.takeWhile (fun c => c != '/')).reverse)

/-- The root part of Python `os.path.splitext`: cut at the last dot,
provided it comes after the last separator and after at least one
non-dot character of the final component (so leading dots of a hidden
file are not an extension). -/
def os_path_splitext_root (p : String) : String :=
  let l := p.data
  let sepIdx := pyRFind l '/'
  let dotIdx := pyRFind l '.'
  if dotIdx > sepIdx ∧
      (List.range l.length).any (fun k =>
        decide (sepIdx < (k : ℤ)) && decide ((k : ℤ) < dotIdx) &&
          (l.getD k '.' != '.')) = true then
    String.mk (l.take dotIdx.toNat)
  else
    p

/-- The file-picker callback (lines 73–90 of `main.py`): given the picked
paths and the current values of the two text fields, return the new
values `(input_file.value, output_file.value)`.  An empty pick leaves
both fields unchanged; otherwise the input field becomes the picked path
and the output field becomes its basename without extension followed by
`"(胶装排版).pdf"`. -/
def pick_file_result (files : List String)
    (input_file_value output_file_value : String) : String × String :=
  match files with
  | [] => (input_file_value, output_file_value)
  | p :: _ =>
    (p, os_path_splitext_root (os_path_basename p) ++ "(胶装排版).pdf")

/-- Outcome of one click of the "开始处理" button: the final status text
and, when `shift_pdf_pages` was invoked, the arguments it received. -/
structure ProcessOutcome where
  status : String
  call : Option (String × String × ℚ × ℤ × Option ℤ × Bool)
deriving Repr

/-- The button-click handler (lines 95–132 of `main.py`).  Free-text
parsing is abstracted by `pyFloat` (Python `float`) and `pyInt`
(Python `int`), both `none` on a parse failure that raises; `isfile`
abstracts `os.path.isfile`; `runResult` is the outcome of the
`shift_pdf_pages` call when it is reached. -/
def process_pdf (input_file_value output_file_value shift_value
    range_start_value range_end_value : String) (direction_switch : Bool)
    (isfile : String → Bool) (pyFloat : String → Option ℚ)
    (pyInt : String → Option ℤ) (runResult : Except String Unit) :
    ProcessOutcome :=
  if input_file_value = "" ∨ isfile input_file_value = false then
    ⟨"请选择有效的PDF文件", none⟩
  else
    match pyFloat shift_value, pyInt range_start_value,
        (if pyStrip range_end_value ≠ "" then (pyInt range_end_value).map some
         else some none) with
    | some shift_cm, some start_page, some end_page =>
      match runResult with
      | .ok _ =>
        ⟨"处理完成",
          some (input_file_value, output_file_value, shift_cm, start_page,
            end_page, direction_switch)⟩
      | .error msg =>
        ⟨"处理失败: " ++ msg,
          some (input_file_value, output_file_value, shift_cm, start_page,
            end_page, direction_switch)⟩
    | _, _, _ => ⟨"请输入有效参数", none⟩

example : os_path_splitext_root (os_path_basename "dir/doc.v2.pdf") = "doc.v2" := by
  decide

example : os_path_splitext_root (os_path_basename "/home/.bashrc") = ".bashrc" := by
  decide

example :
    pick_file_result ["doc.pdf"] "" "output.pdf" = ("doc.pdf", "doc(胶装排版).pdf") := by
  decide

/-- C1: every page at 1-based position `p` with
`start_page ≤ p ≤` effective `end_page` receives exactly one horizontal
translation (vertical component `0`) of magnitude `shift_cm * 28.35`
points: positive when `(p - start_page)` is even and `first_right` holds
or `(p - start_page)` is odd and `first_right` fails, negative
otherwise. -/
theorem claim_C1_alternating_shift (doc : Document) (sc : ℚ) (sp : ℤ)
    (ep : Option ℤ) (fr : Bool) (p : Nat) (h1 : 1 ≤ p) (hp : p ≤ doc.length)
    (hs : sp ≤ (p : ℤ)) (he : (p : ℤ) ≤ effectiveEnd doc.length ep) :
    ((Even ((p : ℤ) - sp) ∧ fr = true) ∨ (Odd ((p : ℤ) - sp) ∧ fr = false) →
      (shift_pdf_pages doc sc sp ep fr)[p - 1]? =
        some ((doc.get ⟨p - 1, by omega⟩).add_transformation
          (sc * (2835 / 100), 0))) ∧
    (¬ ((Even ((p : ℤ) - sp) ∧ fr = true) ∨ (Odd ((p : ℤ) - sp) ∧ fr = false)) →
      (shift_pdf_pages doc sc sp ep fr)[p - 1]? =
        some ((doc.get ⟨p - 1, by omega⟩).add_transformation
          (-(sc * (2835 / 100)), 0))) := by
  constructor
  · intro h
    rw [shift_pdf_pages_in_range doc sc sp ep fr p h1 hp hs he,
      if_pos ((shiftsRight_iff sp (p : ℤ) fr).mpr h)]
    rfl
  · intro h
    rw [shift_pdf_pages_in_range doc sc sp ep fr p h1 hp hs he,
      if_neg (fun hh => h ((shiftsRight_iff sp (p : ℤ) fr).mp hh))]
    rfl

/-- Witness for C1 at a one-page document, `start_page = 1`,
`first_right = true`. -/
theorem claim_C1_witness :
    (shift_pdf_pages [Page.mk 0 []] 1 1 none true)[0]? =
      some ((Page.mk 0 []).add_transformation (1 * (2835 / 100), 0)) :=
  (claim_C1_alternating_shift [Page.mk 0 []] 1 1 none true 1 (by decide)
      (by decide) (by decide) (by decide)).1 (Or.inl ⟨by decide, rfl⟩)

/-- C2: for every document and every parameter combination the output has
exactly as many pages as the input, and the page at each position keeps
the content of the input page at that position. -/
theorem claim_C2_length_and_order (doc : Document) (sc : ℚ) (sp : ℤ)
    (ep : Option ℤ) (fr : Bool) :
    (shift_pdf_pages doc sc sp ep fr).length = doc.length ∧
    ∀ i : Nat,
      ((shift_pdf_pages doc sc sp ep fr)[i]?).map Page.content =
        doc[i]?.map Page.content := by
  refine ⟨shift_pdf_pages_length doc sc sp ep fr, fun i => ?_⟩
  rw [shift_pdf_pages_getElem?, Option.map_map]
  cases doc[i]? with
  | none => rfl
  | some pg => simp [Function.comp, shiftOnePage_content]

/-- C3: every 1-based position below `start_page` or above the effective
`end_page` carries the input page unchanged. -/
theorem claim_C3_frame (doc : Document) (sc : ℚ) (sp : ℤ) (ep : Option ℤ)
    (fr : Bool) (p : Nat) (h1 : 1 ≤ p) (_hp : p ≤ doc.length)
    (hout : (p : ℤ) < sp ∨ effectiveEnd doc.length ep < (p : ℤ)) :
    (shift_pdf_pages doc sc sp ep fr)[p - 1]? = doc[p - 1]? :=
  shift_pdf_pages_out_of_range doc sc sp ep fr p h1 hout

/-- Witness for C3: page 1 of a two-page document is untouched when
`start_page = 2`. -/
theorem claim_C3_witness :
    (shift_pdf_pages [Page.mk 0 [], Page.mk 1 []] 1 2 none true)[0]? =
      ([Page.mk 0 [], Page.mk 1 []] : Document)[0]? :=
  claim_C3_frame [Page.mk 0 [], Page.mk 1 []] 1 2 none true 1 (by decide)
    (by decide) (Or.inl (by decide))

/-- C4: the effective end page is the page count when `end_page` is
unset and `min end_page total_pages` when it is supplied, and
`shift_pdf_pages` behaves exactly as with the clamped value (no error,
no out-of-range access). -/
theorem claim_C4_end_page_clamped (doc : Document) (sc : ℚ) (sp : ℤ)
    (fr : Bool) (e : ℤ) :
    effectiveEnd doc.length none = (doc.length : ℤ) ∧
    effectiveEnd doc.length (some e) = min e (doc.length : ℤ) ∧
    shift_pdf_pages doc sc sp none fr =
      shift_pdf_pages doc sc sp (some doc.length) fr ∧
    shift_pdf_pages doc sc sp (some e) fr =
      shift_pdf_pages doc sc sp (some (min e (doc.length : ℤ))) fr := by
  have h2 : ∀ x : ℤ, effectiveEnd doc.length (some x) = min x (doc.length : ℤ) := by
    intro x
    show (if x > (doc.length : ℤ) then (doc.length : ℤ) else x) =
      min x (doc.length : ℤ)
    rw [min_def]
    split <;> split <;> omega
  refine ⟨rfl, h2 e, ?_, ?_⟩
  · apply shift_pdf_pages_congr_end
    rw [h2]
    show (doc.length : ℤ) = min (doc.length : ℤ) (doc.length : ℤ)
    rw [min_self]
  · apply shift_pdf_pages_congr_end
    rw [h2, h2, min_assoc, min_self]

/-- C5: a `start_page` beyond the page count transforms no page: the
call succeeds and the assembled and written document is the input. -/
theorem claim_C5_start_beyond_total (doc : Document) (sc : ℚ) (sp : ℤ)
    (ep : Option ℤ) (fr : Bool) (h : (doc.length : ℤ) < sp) :
    shift_pdf_pages doc sc sp ep fr = doc ∧
    ∀ out_path,
      shift_pdf_pages_run (Except.ok doc) out_path (Except.ok ()) sc sp ep fr =
        (Except.ok doc,
          [FileEvent.opened out_path, FileEvent.wrote out_path doc]) := by
  have hmain : shift_pdf_pages doc sc sp ep fr = doc :=
    shift_pdf_pages_eq_self doc sc sp ep fr
      (lt_of_le_of_lt (effectiveEnd_le doc.length ep) h)
  exact ⟨hmain, fun out_path => by simp [shift_pdf_pages_run, hmain]⟩

/-- Witness for C5: `start_page = 2` on a one-page document. -/
theorem claim_C5_witness :
    shift_pdf_pages [Page.mk 0 []] 1 2 none true = [Page.mk 0 []] ∧
    shift_pdf_pages_run (Except.ok [Page.mk 0 []]) "out.pdf" (Except.ok ())
        1 2 none true =
      (Except.ok [Page.mk 0 []],
        [FileEvent.opened "out.pdf", FileEvent.wrote "out.pdf" [Page.mk 0 []]]) :=
  ⟨(claim_C5_start_beyond_total [Page.mk 0 []] 1 2 none true (by decide)).1,
    (claim_C5_start_beyond_total [Page.mk 0 []] 1 2 none true (by decide)).2
      "out.pdf"⟩

/-- C6: flipping `first_right` mirrors the translation of every in-range
page (same magnitude, opposite direction) and leaves out-of-range pages
unchanged in both runs. -/
theorem claim_C6_flip_first_right (doc : Document) (sc : ℚ) (sp : ℤ)
    (ep : Option ℤ) (fr : Bool) (p : Nat) (h1 : 1 ≤ p)
    (hp : p ≤ doc.length) :
    (sp ≤ (p : ℤ) → (p : ℤ) ≤ effectiveEnd doc.length ep →
      ∃ t : ℚ, |t| = |sc * (2835 / 100)| ∧
        (shift_pdf_pages doc sc sp ep fr)[p - 1]? =
          some ((doc.get ⟨p - 1, by omega⟩).add_transformation (t, 0)) ∧
        (shift_pdf_pages doc sc sp ep (!fr))[p - 1]? =
          some ((doc.get ⟨p - 1, by omega⟩).add_transformation (-t, 0))) ∧
    (((p : ℤ) < sp ∨ effectiveEnd doc.length ep < (p : ℤ)) →
      (shift_pdf_pages doc sc sp ep fr)[p - 1]? = doc[p - 1]? ∧
      (shift_pdf_pages doc sc sp ep (!fr))[p - 1]? = doc[p - 1]?) := by
  constructor
  · intro hs he
    refine ⟨if shiftsRight sp (p : ℤ) fr = true then sc * (2835 / 100)
        else -(sc * (2835 / 100)), ?_, ?_, ?_⟩
    · split <;> simp [abs_neg]
    · rw [shift_pdf_pages_in_range doc sc sp ep fr p h1 hp hs he]
      split <;> rfl
    · rw [shift_pdf_pages_in_range doc sc sp ep (!fr) p h1 hp hs he,
        shiftsRight_not]
      cases hb : shiftsRight sp (p : ℤ) fr <;>
        simp [hb, shiftPoints]
  · intro hout
    exact ⟨shift_pdf_pages_out_of_range doc sc sp ep fr p h1 hout,
      shift_pdf_pages_out_of_range doc sc sp ep (!fr) p h1 hout⟩

/-- Witness for C6: page 1 of a one-page document, `start_page = 1`. -/
theorem claim_C6_witness :
    ∃ t : ℚ, |t| = |1 * (2835 / 100 : ℚ)| ∧
      (shift_pdf_pages [Page.mk 0 []] 1 1 none true)[0]? =
        some ((Page.mk 0 []).add_transformation (t, 0)) ∧
      (shift_pdf_pages [Page.mk 0 []] 1 1 none (!true))[0]? =
        some ((Page.mk 0 []).add_transformation (-t, 0)) :=
  (claim_C6_flip_first_right [Page.mk 0 []] 1 1 none true 1 (by decide)
      (by decide)).1 (by decide) (by decide)

/-- C7: nothing is written to the destination unless the complete
transformed document has been assembled first; read and open failures
surface as errors with the original message and leave the destination
untouched; any write event carries the full transformed document and
the event trace is all-or-nothing. -/
theorem claim_C7_all_or_nothing (readResult : Except String Document)
    (out_path : String) (openResult : Except String Unit) (sc : ℚ) (sp : ℤ)
    (ep : Option ℤ) (fr : Bool) :
    (∀ msg, readResult = Except.error msg →
      shift_pdf_pages_run readResult out_path openResult sc sp ep fr =
        (Except.error msg, [])) ∧
    (∀ msg, openResult = Except.error msg →
      (shift_pdf_pages_run readResult out_path openResult sc sp ep fr).2 =
        []) ∧
    (∀ doc msg, readResult = Except.ok doc → openResult = Except.error msg →
      shift_pdf_pages_run readResult out_path openResult sc sp ep fr =
        (Except.error msg, [])) ∧
    (∀ q d, FileEvent.wrote q d ∈
        (shift_pdf_pages_run readResult out_path openResult sc sp ep fr).2 →
      q = out_path ∧ ∃ doc, readResult = Except.ok doc ∧
        openResult = Except.ok () ∧ d = shift_pdf_pages doc sc sp ep fr) ∧
    ((shift_pdf_pages_run readResult out_path openResult sc sp ep fr).2 =
        [] ∨
      ∃ doc, readResult = Except.ok doc ∧
        (shift_pdf_pages_run readResult out_path openResult sc sp ep fr).2 =
          [FileEvent.opened out_path,
            FileEvent.wrote out_path (shift_pdf_pages doc sc sp ep fr)]) := by
  cases readResult with
  | error msg => simp [shift_pdf_pages_run]
  | ok doc =>
    cases openResult with
    | error msg => simp [shift_pdf_pages_run]
    | ok u =>
      refine ⟨by simp, by simp, by simp, ?_, Or.inr ⟨doc, rfl, rfl⟩⟩
      intro q d hmem
      simp only [shift_pdf_pages_run, List.mem_cons, List.not_mem_nil,
        or_false] at hmem
      rcases hmem with h | h
      · exact absurd h (by simp)
      · injection h with hq hd
        exact ⟨hq, doc, rfl, rfl, hd⟩

/-- Witness for C7: a read failure, and an open failure after a
successful read, each produce the error with its message and an empty
event trace. -/
theorem claim_C7_witness :
    shift_pdf_pages_run (Except.error "bad") "out.pdf" (Except.ok ())
        1 1 none true = (Except.error "bad", []) ∧
    shift_pdf_pages_run (Except.ok [Page.mk 0 []]) "out.pdf"
        (Except.error "denied") 1 1 none true = (Except.error "denied", []) :=
  ⟨(claim_C7_all_or_nothing (Except.error "bad") "out.pdf" (Except.ok ())
      1 1 none true).1 "bad" rfl,
    (claim_C7_all_or_nothing (Except.ok [Page.mk 0 []]) "out.pdf"
        (Except.error "denied") 1 1 none true).2.2.1 [Page.mk 0 []] "denied"
      rfl rfl⟩

/-- C8: when no file is chosen or the chosen path is not an existing
file, or any of the shift / start page / end page fields fails to parse,
the click handler shows the corresponding error status and never invokes
`shift_pdf_pages`. -/
theorem claim_C8_validation_guards (inputv outputv shiftv startv endv : String)
    (dirb : Bool) (isfile : String → Bool) (pyFloat : String → Option ℚ)
    (pyInt : String → Option ℤ) (runResult : Except String Unit) :
    ((inputv = "" ∨ isfile inputv = false) →
      process_pdf inputv outputv shiftv startv endv dirb isfile pyFloat pyInt
          runResult = ⟨"请选择有效的PDF文件", none⟩) ∧
    (inputv ≠ "" → isfile inputv = true →
      (pyFloat shiftv = none ∨ pyInt startv = none ∨
        (pyStrip endv ≠ "" ∧ pyInt endv = none)) →
      process_pdf inputv outputv shiftv startv endv dirb isfile pyFloat pyInt
          runResult = ⟨"请输入有效参数", none⟩) ∧
    ((inputv = "" ∨ isfile inputv = false ∨ pyFloat shiftv = none ∨
        pyInt startv = none ∨ (pyStrip endv ≠ "" ∧ pyInt endv = none)) →
      (process_pdf inputv outputv shiftv startv endv dirb isfile pyFloat pyInt
          runResult).call = none) := by
  have hbad : (inputv = "" ∨ isfile inputv = false) →
      process_pdf inputv outputv shiftv startv endv dirb isfile pyFloat pyInt
        runResult = ⟨"请选择有效的PDF文件", none⟩ := by
    intro h
    unfold process_pdf
    rw [if_pos h]
  have hparse : inputv ≠ "" → isfile inputv = true →
      (pyFloat shiftv = none ∨ pyInt startv = none ∨
        (pyStrip endv ≠ "" ∧ pyInt endv = none)) →
      process_pdf inputv outputv shiftv startv endv dirb isfile pyFloat pyInt
        runResult = ⟨"请输入有效参数", none⟩ := by
    intro h1 h2 hpf
    unfold process_pdf
    rw [if_neg (by simp [h1, h2])]
    rcases hpf with h | h | ⟨ha, hb⟩
    · rw [h]
    · rw [h]
      cases pyFloat shiftv <;> rfl
    · rw [if_pos ha, hb]
      cases pyFloat shiftv <;> cases pyInt startv <;> rfl
  refine ⟨hbad, hparse, ?_⟩
  intro h
  by_cases hin : inputv = "" ∨ isfile inputv = false
  · rw [hbad hin]
  · push_neg at hin
    obtain ⟨h1, h2⟩ := hin
    have h2' : isfile inputv = true := by
      cases hfi : isfile inputv
      · exact absurd hfi h2
      · rfl
    have hpf : pyFloat shiftv = none ∨ pyInt startv = none ∨
        (pyStrip endv ≠ "" ∧ pyInt endv = none) := by
      rcases h with h | h | h | h | h
      · exact absurd h h1
      · exact absurd h h2
      · exact Or.inl h
      · exact Or.inr (Or.inl h)
      · exact Or.inr (Or.inr h)
    rw [hparse h1 h2' hpf]

/-- Witness for C8: an empty input path is rejected without invoking the
transform. -/
theorem claim_C8_witness :
    process_pdf "" "o.pdf" "1" "1" "" true (fun _ => false) (fun _ => none)
        (fun _ => none) (Except.ok ()) = ⟨"请选择有效的PDF文件", none⟩ :=
  (claim_C8_validation_guards "" "o.pdf" "1" "1" "" true (fun _ => false)
      (fun _ => none) (fun _ => none) (Except.ok ())).1 (Or.inl rfl)

/-- C9 fails as stated: picking `doc.pdf` sets the output field to
`doc(胶装排版).pdf`, whose suffix is not the claimed
`"(binding-layout).pdf"`. -/
theorem claim_C9_counterexample :
    (pick_file_result ["doc.pdf"] "" "output.pdf").2 ≠
      "doc" ++ "(binding-layout).pdf" := by
  decide

/-- C9 (amended): whenever a file is newly selected, the input field is
set to the picked path and the output filename field is set to the
picked path's basename with its extension stripped followed by the
suffix `"(胶装排版).pdf"` (the code's label for binding layout). -/
theorem claim_C9_output_filename (files : List String) (p : String)
    (rest : List String) (inv outv : String) (h : files = p :: rest) :
    pick_file_result files inv outv =
      (p, os_path_splitext_root (os_path_basename p) ++ "(胶装排版).pdf") := by
  subst h
  rfl

/-- Witness for C9: picking `dir/doc.pdf` gives output name
`doc(胶装排版).pdf`. -/
theorem claim_C9_witness :
    os_path_splitext_root (os_path_basename "dir/doc.pdf") = "doc" ∧
    pick_file_result ["dir/doc.pdf"] "" "output.pdf" =
      ("dir/doc.pdf",
        os_path_splitext_root (os_path_basename "dir/doc.pdf") ++
          "(胶装排版).pdf") :=
  ⟨by decide,
    claim_C9_output_filename ["dir/doc.pdf"] "dir/doc.pdf" [] "" "output.pdf"
      rfl⟩

/-- C10: an `end_page` whose clamped value is below `start_page`
transforms no page: the call succeeds and the assembled and written
document is the input. -/
theorem claim_C10_empty_range (doc : Document) (sc : ℚ) (sp : ℤ) (e : ℤ)
    (fr : Bool) (h : effectiveEnd doc.length (some e) < sp) :
    shift_pdf_pages doc sc sp (some e) fr = doc ∧
    ∀ out_path,
      shift_pdf_pages_run (Except.ok doc) out_path (Except.ok ()) sc sp
          (some e) fr =
        (Except.ok doc,
          [FileEvent.opened out_path, FileEvent.wrote out_path doc]) := by
  have hmain : shift_pdf_pages doc sc sp (some e) fr = doc :=
    shift_pdf_pages_eq_self doc sc sp (some e) fr h
  exact ⟨hmain, fun out_path => by simp [shift_pdf_pages_run, hmain]⟩

/-- Witness for C10: `start_page = 2`, `end_page = 1` on a two-page
document. -/
theorem claim_C10_witness :
    shift_pdf_pages [Page.mk 0 [], Page.mk 1 []] 1 2 (some 1) true =
      [Page.mk 0 [], Page.mk 1 []] ∧
    shift_pdf_pages_run (Except.ok [Page.mk 0 [], Page.mk 1 []]) "out.pdf"
        (Except.ok ()) 1 2 (some 1) true =
      (Except.ok [Page.mk 0 [], Page.mk 1 []],
        [FileEvent.opened "out.pdf",
          FileEvent.wrote "out.pdf" [Page.mk 0 [], Page.mk 1 []]]) :=
  ⟨(claim_C10_empty_range [Page.mk 0 [], Page.mk 1 []] 1 2 1 true
      (by decide)).1,
    (claim_C10_empty_range [Page.mk 0 [], Page.mk 1 []] 1 2 1 true
      (by decide)).2 "out.pdf"⟩
